import Mathlib

/-!
Verification of the book-catalog client (src/app/page.tsx).

The development shallowly embeds the client-side logic of the repository:
the pagination-window computation (getPaginationRange), the form-field
update handler (handleChange), the modal open effect, the multipart
payload builder and save flow (handleSubmit / handleSaveBook), and the
list refresh (getBooks).  JavaScript numbers that are only ever used as
integers are modelled as Int; JavaScript strings as String; dynamic
objects touched through computed keys as functions from field names to
values.
-/

/-- Integers from s up the given number of steps: rangeAux n s = [s, s+1, ..., s+n-1].
Models the push loop `for (let i = start; i <= end; i++) range.push(i)`. -/
def rangeAux : Nat → Int → List Int
  | 0, _ => []
  | n + 1, s => s :: rangeAux n (s + 1)

/-- The inclusive integer range [s..e], empty when e < s. -/
def rangeList (s e : Int) : List Int :=
  rangeAux (e + 1 - s).toNat s

/-- The constant maxVisiblePages = 10 from getPaginationRange. -/
def maxVisiblePages : Int := 10

/-- Embedding of getPaginationRange (src/app/page.tsx lines 375-398), as a
function of the current page and data.totalPages.  The two mutable
reassignments of start and end in the source become branch-local values. -/
def getPaginationRange (page totalPages : Int) : List Int :=
  let start := max (page - 5) 1
  let e := min (page + 4) totalPages
  if e - start + 1 < maxVisiblePages then
    if start = 1 then
      rangeList start (min (start + maxVisiblePages - 1) totalPages)
    else
      rangeList (max (e - maxVisiblePages + 1) 1) e
  else
    rangeList start e

/-- The pagination-window algorithm written from the specification text:
start = max(page - 5, 1), end = min(page + 4, totalPages); if
end - start + 1 < 10 then (if start = 1 set end = min(start + 9,
totalPages) else set start = max(end - 9, 1)); output every integer from
start to end inclusive. -/
def computeVisibleWindow (page totalPages : Int) : List Int :=
  let start := max (page - 5) 1
  let e := min (page + 4) totalPages
  if e - start + 1 < 10 then
    if start = 1 then
      rangeList start (min (start + 9) totalPages)
    else
      rangeList (max (e - 9) 1) e
  else
    rangeList start e

theorem length_rangeAux (n : Nat) (s : Int) : (rangeAux n s).length = n := by
  induction n generalizing s with
  | zero => rfl
  | succ m ih => simp [rangeAux, ih]

theorem mem_rangeAux {x : Int} (n : Nat) (s : Int) :
    x ∈ rangeAux n s ↔ s ≤ x ∧ x < s + n := by
  induction n generalizing s with
  | zero => simp [rangeAux]
  | succ m ih =>
    simp [rangeAux, ih]
    omega

theorem chain'_rangeAux (n : Nat) (s : Int) :
    List.Chain' (fun a b => b = a + 1) (rangeAux n s) := by
  induction n generalizing s with
  | zero => simp [rangeAux]
  | succ m ih =>
    cases m with
    | zero => simp [rangeAux]
    | succ k =>
      refine List.Chain'.cons ?_ (ih (s + 1))
      rfl

theorem length_rangeList (s e : Int) : (rangeList s e).length = (e + 1 - s).toNat := by
  simp [rangeList, length_rangeAux]

theorem mem_rangeList {x : Int} (s e : Int) : x ∈ rangeList s e ↔ s ≤ x ∧ x ≤ e := by
  rw [rangeList, mem_rangeAux]
  omega

theorem chain'_rangeList (s e : Int) :
    List.Chain' (fun a b => b = a + 1) (rangeList s e) :=
  chain'_rangeAux _ s

theorem rangeList_eq_nil {s e : Int} (h : e < s) : rangeList s e = [] := by
  have hl : (rangeList s e).length = 0 := by
    rw [length_rangeList]; omega
  exact List.eq_nil_of_length_eq_zero hl

/-- C1: for every page ≥ 1 and totalPages ≥ 0, getPaginationRange computes
exactly the window described by the specification algorithm (tentative
start = max(page - 5, 1), tentative end = min(page + 4, totalPages),
widened to width 10 by extending end when start = 1 and pulling start
back otherwise, then all integers from start to end inclusive). -/
theorem getPaginationRange_eq_computeVisibleWindow (page totalPages : Int)
    (_hp : 1 ≤ page) (_ht : 0 ≤ totalPages) :
    getPaginationRange page totalPages = computeVisibleWindow page totalPages := by
  have h9 : ∀ s : Int, s + 10 - 1 = s + 9 := fun s => by ring
  have h9b : ∀ s : Int, s - 10 + 1 = s - 9 := fun s => by ring
  simp only [getPaginationRange, computeVisibleWindow, maxVisiblePages, h9, h9b]

theorem getPaginationRange_eq_computeVisibleWindow_witness :
    (1 : Int) ≤ 7 ∧ (0 : Int) ≤ 20 ∧
      getPaginationRange 7 20 = computeVisibleWindow 7 20 :=
  ⟨by decide, by decide,
    getPaginationRange_eq_computeVisibleWindow 7 20 (by decide) (by decide)⟩

/-- C2: for every page ≥ 1 and totalPages ≥ 0, the pagination window is a
contiguous strictly ascending run (each element is its predecessor plus
one), has length at most 10, every element lies in [1, totalPages], and
it is empty when totalPages = 0. -/
theorem getPaginationRange_window_props (page totalPages : Int)
    (hp : 1 ≤ page) (_ht : 0 ≤ totalPages) :
    List.Chain' (fun a b => b = a + 1) (getPaginationRange page totalPages) ∧
    (getPaginationRange page totalPages).length ≤ 10 ∧
    (∀ x ∈ getPaginationRange page totalPages, 1 ≤ x ∧ x ≤ totalPages) ∧
    (totalPages = 0 → getPaginationRange page totalPages = []) := by
  simp only [getPaginationRange, maxVisiblePages]
  split_ifs with h1 h2 <;>
    exact ⟨chain'_rangeList _ _,
      by rw [length_rangeList]; omega,
      fun x hx => by rw [mem_rangeList] at hx; omega,
      fun h0 => rangeList_eq_nil (by omega)⟩

theorem getPaginationRange_window_props_witness :
    List.Chain' (fun a b => b = a + 1) (getPaginationRange 7 20) ∧
    (getPaginationRange 7 20).length ≤ 10 ∧
    (∀ x ∈ getPaginationRange 7 20, 1 ≤ x ∧ x ≤ 20) ∧
    ((20 : Int) = 0 → getPaginationRange 7 20 = []) :=
  getPaginationRange_window_props 7 20 (by decide) (by decide)

/-- C3 counterexample: at page = 7, totalPages = 20 the code does not
produce [3..12]; the tentative bounds are start = max(7 - 5, 1) = 2 and
end = min(7 + 4, 20) = 11, the span is already 10 wide, so the window is
[2..11]. -/
theorem getPaginationRange_spec_example_false :
    ¬ (getPaginationRange 7 20 = [3, 4, 5, 6, 7, 8, 9, 10, 11, 12]) := by
  decide

/-- C3 amended: getPaginationRange returns [1, 2, 3] for page = 1,
totalPages = 3; [2..11] (not [3..12]) for page = 7, totalPages = 20; and
[] whenever totalPages = 0. -/
theorem getPaginationRange_examples :
    getPaginationRange 1 3 = [1, 2, 3] ∧
    getPaginationRange 7 20 = [2, 3, 4, 5, 6, 7, 8, 9, 10, 11] ∧
    ∀ page : Int, getPaginationRange page 0 = [] := by
  refine ⟨by decide, by decide, fun page => ?_⟩
  simp only [getPaginationRange, maxVisiblePages]
  split_ifs <;> exact rangeList_eq_nil (by omega)

/-- A JavaScript primitive value as stored in the modal form state: the
declared Book fields hold strings except the two amounts, and the
computed-key update in handleChange can store either kind under any key. -/
inductive JsValue
  | str (s : String)
  | num (n : Int)
deriving DecidableEq

/-- The Book record edited by the modal (src/app/page.tsx lines 13-23). -/
structure Book where
  id : String
  title : String
  author : String
  publisher : String
  publishDt : String
  bookDetails : String
  thumbSeq : String
  booksAmount : Int
  sellAmount : Int
deriving DecidableEq

/-- initialBookState (lines 33-43): the blank create-mode template. -/
def initialBookState : Book :=
  { id := "", title := "", author := "", publisher := "", publishDt := "",
    bookDetails := "", thumbSeq := "", booksAmount := 0, sellAmount := 0 }

/-- The declared Book field names, in declaration order of the Book type
and of initialBookState (the order Object.entries enumerates them in). -/
def bookFieldNames : List String :=
  ["id", "title", "author", "publisher", "publishDt", "bookDetails",
   "thumbSeq", "booksAmount", "sellAmount"]

/-- Whitespace skipped by JavaScript parseInt. -/
def isJsSpace (c : Char) : Bool :=
  [' ', '\t', '\n', '\r', '\x0b', '\x0c'].contains c

/-- Value of a run of decimal digit characters. -/
def digitsVal (ds : List Char) : Int :=
  ds.foldl (fun a c => a * 10 + ((c.toNat : Int) - ('0'.toNat : Int))) 0

/-- Model of the ECMAScript parseInt builtin called by handleChange, on
decimal input: skip leading whitespace, read an optional sign, then take
the maximal run of decimal digits; no digit at all yields NaN, modelled
as none.  (The hexadecimal 0x prefix case never changes the claims
considered here and is not modelled.) -/
def jsParseInt (s : String) : Option Int :=
  match s.data.dropWhile isJsSpace with
  | '-' :: rest =>
      let ds := rest.takeWhile Char.isDigit
      if ds.isEmpty then none else some (-(digitsVal ds))
  | '+' :: rest =>
      let ds := rest.takeWhile Char.isDigit
      if ds.isEmpty then none else some (digitsVal ds)
  | rest =>
      let ds := rest.takeWhile Char.isDigit
      if ds.isEmpty then none else some (digitsVal ds)

/-- The expression parseInt(value) || 0 from handleChange: NaN is falsy
and becomes 0 (a parsed 0 is also falsy, and || yields 0 again). -/
def parseIntOr0 (v : String) : Int :=
  match jsParseInt v with
  | some n => n
  | none => 0

/-- Embedding of handleChange (lines 89-95): the update
`{...prev, [name]: name === "booksAmount" || name === "selAmount" ? parseInt(value) || 0 : value}`
on the form object viewed as a total map from keys to values. -/
def handleChange (prev : String → JsValue) (name value : String) :
    String → JsValue := fun k =>
  if k = name then
    if name = "booksAmount" ∨ name = "selAmount" then JsValue.num (parseIntOr0 value)
    else JsValue.str value
  else prev k

/-- C7: updating booksAmount stores the integer parse of the input string,
defaulting to 0 when parsing fails ("12" becomes 12, "abc" becomes 0);
every other declared Book field is stored verbatim as the given string;
and every key other than the named one keeps its previous value. -/
theorem handleChange_booksAmount_parses (prev : String → JsValue) (value : String) :
    handleChange prev "booksAmount" value "booksAmount" = JsValue.num (parseIntOr0 value) ∧
    parseIntOr0 "12" = 12 ∧ parseIntOr0 "abc" = 0 ∧
    (∀ name, name ∈ bookFieldNames → name ≠ "booksAmount" →
      handleChange prev name value name = JsValue.str value) ∧
    (∀ name k, k ≠ name → handleChange prev name value k = prev k) := by
  refine ⟨by simp [handleChange], by decide, by decide, ?_, ?_⟩
  · intro name hmem hne
    have hsel : name ≠ "selAmount" := by
      intro h; subst h; revert hmem; decide
    simp [handleChange, hne, hsel]
  · intro name k hk
    simp [handleChange, hk]

theorem handleChange_booksAmount_parses_witness :
    handleChange (fun _ => JsValue.str "") "title" "abc" "title" = JsValue.str "abc" ∧
    handleChange (fun _ => JsValue.str "") "title" "abc" "author" = JsValue.str "" := by
  refine ⟨?_, ?_⟩
  · exact (handleChange_booksAmount_parses (fun _ => JsValue.str "") "abc").2.2.2.1
      "title" (by decide) (by decide)
  · exact (handleChange_booksAmount_parses (fun _ => JsValue.str "") "abc").2.2.2.2
      "title" "author" (by decide)

/-- C10: the numeric-parse branch of handleChange matches only the names
"booksAmount" and "selAmount", so a write under the quantity-sold field
name "sellAmount" stores the raw input string verbatim (no integer
parsing), while the misspelled key "selAmount" would be integer-parsed. -/
theorem handleChange_sellAmount_raw_string (prev : String → JsValue) (v : String) :
    handleChange prev "sellAmount" v "sellAmount" = JsValue.str v ∧
    handleChange prev "selAmount" v "selAmount" = JsValue.num (parseIntOr0 v) := by
  constructor <;> simp [handleChange]

/-- A file chosen in the file input; only its identity matters here. -/
structure JsFile where
  name : String
deriving DecidableEq

/-- One part of a multipart FormData body. -/
inductive FormPart
  | text (s : String)
  | file (f : JsFile)
deriving DecidableEq

/-- An HTTP request as issued by the fetch call in handleSaveBook. -/
structure SaveRequest where
  method : String
  url : String
  body : List (String × FormPart)
deriving DecidableEq

/-- Embedding of the request construction in handleSaveBook (lines
418-426): the url is baseUrl + "/books" + (book.id truthy, i.e.
non-empty, yielding "/" + book.id, else nothing), the method is PUT for a
truthy id and POST otherwise, and the body is the prebuilt FormData. -/
def handleSaveBookRequest (baseUrl : String) (book : Book)
    (formData : List (String × FormPart)) : SaveRequest :=
  { url := baseUrl ++ "/books" ++ (if book.id = "" then "" else "/" ++ book.id),
    method := if book.id = "" then "POST" else "PUT",
    body := formData }

/-- C4: saving with an empty id issues a POST to the collection resource,
saving with a non-empty id issues a PUT to the id-specific resource, and
in both cases the prebuilt multipart payload is the request body. -/
theorem handleSaveBook_request_method_url (baseUrl : String) (book : Book)
    (formData : List (String × FormPart)) :
    (book.id = "" →
      (handleSaveBookRequest baseUrl book formData).method = "POST" ∧
      (handleSaveBookRequest baseUrl book formData).url = baseUrl ++ "/books") ∧
    (book.id ≠ "" →
      (handleSaveBookRequest baseUrl book formData).method = "PUT" ∧
      (handleSaveBookRequest baseUrl book formData).url =
        baseUrl ++ "/books" ++ "/" ++ book.id) ∧
    (handleSaveBookRequest baseUrl book formData).body = formData := by
  refine ⟨fun h => ?_, fun h => ?_, rfl⟩
  · simp [handleSaveBookRequest, h]
  · refine ⟨by simp [handleSaveBookRequest, h], ?_⟩
    simp only [handleSaveBookRequest, if_neg h, String.append_assoc]

theorem handleSaveBook_request_method_url_witness :
    (handleSaveBookRequest "http://api" initialBookState []).method = "POST" ∧
    (handleSaveBookRequest "http://api" { initialBookState with id := "7" } []).method = "PUT" ∧
    (handleSaveBookRequest "http://api" { initialBookState with id := "7" } []).url =
      "http://api" ++ "/books" ++ "/" ++ "7" :=
  ⟨((handleSaveBook_request_method_url "http://api" initialBookState []).1 rfl).1,
   ((handleSaveBook_request_method_url "http://api"
      { initialBookState with id := "7" } []).2.1 (by decide)).1,
   ((handleSaveBook_request_method_url "http://api"
      { initialBookState with id := "7" } []).2.1 (by decide)).2⟩

/-- One state update performed by the BookModal open effect. -/
inductive ModalEffectAction
  | setThumbnail (t : Option JsFile)
  | fetchDetail (bookId : String)
  | setBookData (b : Book)
deriving DecidableEq

/-- Embedding of the BookModal useEffect on [bookId, isOpen] (lines
77-86), as the ordered list of updates it performs: it first clears the
pending thumbnail, then either starts the detail fetch (truthy bookId,
i.e. edit mode) or resets the form to the blank template (create mode). -/
def bookModalOpenEffect (bookId : String) : List ModalEffectAction :=
  ModalEffectAction.setThumbnail none ::
    (if bookId = "" then [ModalEffectAction.setBookData initialBookState]
     else [ModalEffectAction.fetchDetail bookId])

/-- C8: on every open of the modal the first action resets the pending
thumbnail to empty; only afterwards is the book detail either fetched
(non-empty id) or reset to the blank template (empty id). -/
theorem bookModal_open_resets_thumbnail_first (bookId : String) :
    (bookModalOpenEffect bookId).head? = some (ModalEffectAction.setThumbnail none) ∧
    (bookId ≠ "" → bookModalOpenEffect bookId =
      [ModalEffectAction.setThumbnail none, ModalEffectAction.fetchDetail bookId]) ∧
    (bookId = "" → bookModalOpenEffect bookId =
      [ModalEffectAction.setThumbnail none,
       ModalEffectAction.setBookData initialBookState]) := by
  refine ⟨rfl, fun h => ?_, fun h => ?_⟩ <;> simp [bookModalOpenEffect, h]

theorem bookModal_open_resets_thumbnail_first_witness :
    bookModalOpenEffect "b1" =
      [ModalEffectAction.setThumbnail none, ModalEffectAction.fetchDetail "b1"] ∧
    bookModalOpenEffect "" =
      [ModalEffectAction.setThumbnail none,
       ModalEffectAction.setBookData initialBookState] :=
  ⟨(bookModal_open_resets_thumbnail_first "b1").2.1 (by decide),
   (bookModal_open_resets_thumbnail_first "").2.2 rfl⟩

/-- Object.entries of the Book object, in field declaration order. -/
def bookEntries (b : Book) : List (String × JsValue) :=
  [("id", JsValue.str b.id), ("title", JsValue.str b.title),
   ("author", JsValue.str b.author), ("publisher", JsValue.str b.publisher),
   ("publishDt", JsValue.str b.publishDt), ("bookDetails", JsValue.str b.bookDetails),
   ("thumbSeq", JsValue.str b.thumbSeq), ("booksAmount", JsValue.num b.booksAmount),
   ("sellAmount", JsValue.num b.sellAmount)]

/-- The expression `value ? value.toString() : ''` appended per field by
handleSubmit: falsy values (the empty string, the number 0) become the
empty string, others their toString form. -/
def jsTruthyToString : JsValue → String
  | JsValue.str s => if s = "" then "" else s
  | JsValue.num n => if n = 0 then "" else toString n

/-- Embedding of the FormData construction in handleSubmit (lines
109-120): one text part per Book field in declaration order, plus the
pending thumbnail file under the fixed name "thumbnail" when present. -/
def buildSubmitFormData (b : Book) (thumbnail : Option JsFile) :
    List (String × FormPart) :=
  (bookEntries b).map (fun kv => (kv.1, FormPart.text (jsTruthyToString kv.2))) ++
    (match thumbnail with
     | some f => [("thumbnail", FormPart.file f)]
     | none => [])

/-- C9: the multipart payload holds exactly one entry per Book field (the
keys are the nine field names, without duplicates), each carrying the
string form of the field's value with the empty string substituted for
falsy values (in particular a quantity of 0 becomes ""), plus an entry
under the fixed name "thumbnail" exactly when a pending file is present. -/
theorem buildSubmitFormData_entries (b : Book) (thumbnail : Option JsFile) :
    (buildSubmitFormData b thumbnail).map Prod.fst =
      bookFieldNames ++ (if thumbnail.isSome then ["thumbnail"] else []) ∧
    ((buildSubmitFormData b thumbnail).map Prod.fst).Nodup ∧
    (∀ k v, (k, v) ∈ bookEntries b →
      (k, FormPart.text (jsTruthyToString v)) ∈ buildSubmitFormData b thumbnail) ∧
    jsTruthyToString (JsValue.num 0) = "" ∧
    (∀ f, thumbnail = some f →
      ("thumbnail", FormPart.file f) ∈ buildSubmitFormData b thumbnail) ∧
    (thumbnail = none →
      ∀ p ∈ buildSubmitFormData b thumbnail, p.1 ≠ "thumbnail") := by
  have hkeys : (buildSubmitFormData b thumbnail).map Prod.fst =
      bookFieldNames ++ (if thumbnail.isSome then ["thumbnail"] else []) := by
    cases thumbnail <;> rfl
  refine ⟨hkeys, ?_, ?_, rfl, ?_, ?_⟩
  · rw [hkeys]; cases thumbnail <;> simp [bookFieldNames]
  · intro k v hkv
    exact List.mem_append_left _
      (List.mem_map_of_mem (fun kv => (kv.1, FormPart.text (jsTruthyToString kv.2))) hkv)
  · intro f hf
    subst hf
    simp [buildSubmitFormData]
  · intro h p hp
    subst h
    simp only [buildSubmitFormData, List.append_nil, List.mem_map] at hp
    obtain ⟨kv, hkv, rfl⟩ := hp
    intro heq
    have hk : kv.1 ∈ bookFieldNames := List.mem_map_of_mem Prod.fst hkv
    have heq2 : kv.1 = "thumbnail" := heq
    rw [heq2] at hk
    revert hk
    decide

theorem buildSubmitFormData_entries_witness :
    ("booksAmount", FormPart.text (jsTruthyToString (JsValue.num 0))) ∈
      buildSubmitFormData initialBookState (some ⟨"cover.png"⟩) ∧
    ("thumbnail", FormPart.file ⟨"cover.png"⟩) ∈
      buildSubmitFormData initialBookState (some ⟨"cover.png"⟩) :=
  ⟨(buildSubmitFormData_entries initialBookState (some ⟨"cover.png"⟩)).2.2.1
      "booksAmount" (JsValue.num 0) (by decide),
   (buildSubmitFormData_entries initialBookState (some ⟨"cover.png"⟩)).2.2.2.2.1
      ⟨"cover.png"⟩ rfl⟩

/-- A BookSummary row of the list view (BooksClient Book, lines 309-319). -/
structure BookSummary where
  id : String
  title : String
  author : String
  publisher : String
  publishDt : String
  bookDetails : String
  thumbUrl : String
  booksAmount : Int
  sellAmount : Int
deriving DecidableEq

/-- The list response shape (BooksResponse, lines 321-326). -/
structure BooksResponse where
  list : List BookSummary
  responseMessage : String
  totalPages : Int
  responseCode : Int
deriving DecidableEq

/-- List Controller state touched by getBooks: the latest response (null
before the first success) and the loading flag. -/
structure ListState where
  data : Option BooksResponse
  loading : Bool
deriving DecidableEq

/-- Outcome of the list fetch as seen by getBooks: a parsed ok response,
a non-ok response (on which getBooks throws to its own catch), or a
thrown network or parse error. -/
inductive ListFetchOutcome
  | ok (result : BooksResponse)
  | notOk
  | thrown
deriving DecidableEq

/-- Embedding of getBooks (lines 339-362): loading is set, the parsed
response replaces data only on an ok response, every failure is caught
and only logged, and the finally block clears loading. -/
def getBooks (s : ListState) (outcome : ListFetchOutcome) : ListState :=
  let s1 : ListState := { s with loading := true }
  let s2 : ListState :=
    match outcome with
    | ListFetchOutcome.ok result => { s1 with data := some result }
    | ListFetchOutcome.notOk => s1
    | ListFetchOutcome.thrown => s1
  { s2 with loading := false }

/-- C6: a failed list fetch (non-ok response or thrown error) leaves the
stored PageResult completely unchanged; a successful fetch replaces it
wholesale with the response; and in every case the loading flag is false
once the call settles. -/
theorem getBooks_failure_preserves_data (s : ListState) (outcome : ListFetchOutcome) :
    (outcome = ListFetchOutcome.notOk ∨ outcome = ListFetchOutcome.thrown →
      (getBooks s outcome).data = s.data) ∧
    (∀ result, outcome = ListFetchOutcome.ok result →
      (getBooks s outcome).data = some result) ∧
    (getBooks s outcome).loading = false := by
  refine ⟨fun h => ?_, fun result h => ?_, ?_⟩
  · rcases h with rfl | rfl <;> rfl
  · subst h; rfl
  · cases outcome <;> rfl

theorem getBooks_failure_preserves_data_witness :
    (getBooks { data := none, loading := false } ListFetchOutcome.thrown).data = none ∧
    (getBooks { data := none, loading := false }
        (ListFetchOutcome.ok ⟨[], "", 0, 0⟩)).data = some ⟨[], "", 0, 0⟩ :=
  ⟨(getBooks_failure_preserves_data { data := none, loading := false }
      ListFetchOutcome.thrown).1 (Or.inr rfl),
   (getBooks_failure_preserves_data { data := none, loading := false }
      (ListFetchOutcome.ok ⟨[], "", 0, 0⟩)).2.1 ⟨[], "", 0, 0⟩ rfl⟩

/-- Outcome of the save fetch inside handleSaveBook: an HTTP response
(ok flag plus the errorData.message read from the error body, "" when
absent or empty), a thrown Error carrying its message, or a thrown
non-Error value. -/
inductive SaveOutcome
  | resp (ok : Bool) (serverMessage : String)
  | thrownError (message : String)
  | thrownNonError
deriving DecidableEq

/-- The JavaScript value handleSaveBook rejects with. -/
inductive Thrown
  | jsError (message : String)
  | nonError
deriving DecidableEq

/-- The generic failure message constructed in handleSaveBook (line 430). -/
def saveFailMessage : String := "저장에 실패했습니다."

/-- The generic fallback shown by handleSubmit for non-Error throws
(line 125). -/
def submitFallbackMessage : String := "저장 중 오류가 발생했습니다."

/-- Whether the save outcome is a failure (non-ok response or throw). -/
def SaveOutcome.isFailure : SaveOutcome → Bool
  | SaveOutcome.resp ok _ => !ok
  | SaveOutcome.thrownError _ => true
  | SaveOutcome.thrownNonError => true

/-- Embedding of the control flow of handleSaveBook (lines 418-440): on a
non-ok response it throws an Error with errorData.message falling back to
the generic message when that is falsy; caught errors are logged and
rethrown; on an ok response it triggers getBooks, reported as the Bool. -/
def handleSaveBookRun : SaveOutcome → Except Thrown Bool
  | SaveOutcome.resp true _ => Except.ok true
  | SaveOutcome.resp false m =>
      Except.error (Thrown.jsError (if m = "" then saveFailMessage else m))
  | SaveOutcome.thrownError m => Except.error (Thrown.jsError m)
  | SaveOutcome.thrownNonError => Except.error Thrown.nonError

/-- Modal UI state touched by handleSubmit. -/
structure ModalUiState where
  isOpen : Bool
  error : String
  loading : Bool
deriving DecidableEq

/-- Embedding of handleSubmit's control flow (lines 104-129) around the
onSave = handleSaveBook call with the given outcome: loading is set and
the error cleared, onClose runs only when onSave resolves, a rejection
sets the error to the Error's message (the localized generic fallback for
non-Error values), and the finally block clears loading.  The returned
Bool reports whether a list refresh was triggered. -/
def handleSubmitRun (s : ModalUiState) (outcome : SaveOutcome) :
    ModalUiState × Bool :=
  let s1 : ModalUiState := { s with loading := true, error := "" }
  match handleSaveBookRun outcome with
  | Except.ok refreshed =>
      ({ s1 with isOpen := false, loading := false }, refreshed)
  | Except.error (Thrown.jsError m) =>
      ({ s1 with error := m, loading := false }, false)
  | Except.error Thrown.nonError =>
      ({ s1 with error := submitFallbackMessage, loading := false }, false)

/-- C5 counterexample: when the save rejects with a thrown Error whose
message is empty, handleSubmit stores that empty message verbatim, so
this failure leaves the error string empty, not non-empty. -/
theorem handleSubmit_empty_error_counterexample :
    SaveOutcome.isFailure (SaveOutcome.thrownError "") = true ∧
    (handleSubmitRun { isOpen := true, error := "", loading := false }
        (SaveOutcome.thrownError "")).1.isOpen = true ∧
    (handleSubmitRun { isOpen := true, error := "", loading := false }
        (SaveOutcome.thrownError "")).1.error = "" :=
  ⟨rfl, rfl, rfl⟩

/-- C5 amended: on failure the modal stays open, no refresh is triggered,
and the error string is the server-provided message when the response was
non-success (with the generic failure message substituted when it is
absent, hence non-empty), the thrown Error's own message verbatim
(possibly empty) for a rejected fetch, and the generic localized fallback
for non-Error throws; on success the modal is closed and a list refresh
is triggered; loading is cleared in every case. -/
theorem handleSubmit_outcome_props (s : ModalUiState) (outcome : SaveOutcome)
    (hopen : s.isOpen = true) :
    (handleSubmitRun s outcome).1.loading = false ∧
    (SaveOutcome.isFailure outcome = true →
      (handleSubmitRun s outcome).1.isOpen = true ∧
      (handleSubmitRun s outcome).2 = false) ∧
    (∀ m, outcome = SaveOutcome.resp false m →
      (handleSubmitRun s outcome).1.error = (if m = "" then saveFailMessage else m) ∧
      (handleSubmitRun s outcome).1.error ≠ "") ∧
    (∀ m, outcome = SaveOutcome.thrownError m →
      (handleSubmitRun s outcome).1.error = m) ∧
    (outcome = SaveOutcome.thrownNonError →
      (handleSubmitRun s outcome).1.error = submitFallbackMessage ∧
      (handleSubmitRun s outcome).1.error ≠ "") ∧
    (SaveOutcome.isFailure outcome = false →
      (handleSubmitRun s outcome).1.isOpen = false ∧
      (handleSubmitRun s outcome).2 = true) := by
  cases outcome with
  | resp ok m =>
      cases ok <;>
        simp [handleSubmitRun, handleSaveBookRun, SaveOutcome.isFailure, hopen,
          saveFailMessage]
      split_ifs with hm <;> simp [saveFailMessage, hm]
  | thrownError m =>
      simp [handleSubmitRun, handleSaveBookRun, SaveOutcome.isFailure, hopen]
  | thrownNonError =>
      simp [handleSubmitRun, handleSaveBookRun, SaveOutcome.isFailure, hopen,
        submitFallbackMessage]

theorem handleSubmit_outcome_props_witness :
    (handleSubmitRun { isOpen := true, error := "", loading := false }
        (SaveOutcome.resp false "")).1.loading = false ∧
    (handleSubmitRun { isOpen := true, error := "", loading := false }
        (SaveOutcome.resp false "")).1.error ≠ "" :=
  ⟨(handleSubmit_outcome_props { isOpen := true, error := "", loading := false }
      (SaveOutcome.resp false "") rfl).1,
   ((handleSubmit_outcome_props { isOpen := true, error := "", loading := false }
      (SaveOutcome.resp false "") rfl).2.2.1 "" rfl).2⟩
